import Mathlib

/-!
Shallow embedding of the Sparkify data-lake ETL (`etl.py`).

Raw datasets are modelled as Lean lists of records; the Spark dataframe
transformations of `process_song_data` and `process_log_data` are modelled
as pure list functions, faithful to the source line by line:

* `df.filter(df.page == 'NextSong')`            -> `filterNextSong`
* `select(...).dropDuplicates()`                -> `List.map` + `List.dedup`
* `groupBy('userId').max('ts')`                 -> `max_ts_user`
* the inner join on `(userId, ts) = (user_id, max_ts)` -> `users_of`
* `udf(lambda x: str(int(x/1000)))`             -> `get_timestamp`
* `from_unixtime` and the calendar column functions `hour`, `dayofmonth`,
  `weekofyear`, `month`, `year`, `dayofweek`    -> `from_unixtime`,
  `weekofyear`, `dayofweek` (civil-calendar arithmetic on epoch seconds)
* the left join of log events against song records on
  `(song = title) and (artist = artist_name)`   -> `joinMatches`
* `monotonically_increasing_id()`               -> `withIds` (sequential ids)
* each `write...parquet(...)` call              -> a `WriteSpec` value
  recording destination dataset, mode and partition columns.

Timestamps (`ts`, epoch milliseconds) and ids are natural numbers; the
float-valued song attributes (`duration`, `artist_latitude`,
`artist_longitude`) are opaque payload for every property proved here and
are carried as integers.
-/

/-- A raw log event, one JSON record of `log_data` (fields as read by
`process_log_data`). -/
structure LogEvent where
  userId : String
  firstName : String
  lastName : String
  gender : String
  level : String
  ts : Nat
  page : String
  song : String
  artist : String
  sessionId : Nat
  location : String
  userAgent : String
deriving DecidableEq, Repr

/-- A raw song metadata record, one JSON record of `song_data` (fields as
read by `process_song_data` and by the fact join). -/
structure SongRecord where
  song_id : String
  title : String
  artist_id : String
  artist_name : String
  artist_location : String
  artist_latitude : Int
  artist_longitude : Int
  year : Nat
  duration : Int
deriving DecidableEq, Repr

/-- Row of the `dim_songs` table: `select('song_id', 'title', 'artist_id',
'year', 'duration')`. -/
structure SongDimRow where
  song_id : String
  title : String
  artist_id : String
  year : Nat
  duration : Int
deriving DecidableEq, Repr

/-- Row of the `dim_artists` table after the `withColumnRenamed` chain. -/
structure ArtistDimRow where
  artist_id : String
  name : String
  location : String
  latitude : Int
  longitude : Int
deriving DecidableEq, Repr

/-- Row of the `dim_users` table after the renames. -/
structure UserRow where
  user_id : String
  first_name : String
  last_name : String
  gender : String
  level : String
deriving DecidableEq, Repr

/-- A calendar timestamp at whole-second granularity, the value produced by
Spark's `from_unixtime` (which formats seconds as `yyyy-MM-dd HH:mm:ss`). -/
structure Datetime where
  year : Nat
  month : Nat
  day : Nat
  hour : Nat
  minute : Nat
  second : Nat
deriving DecidableEq, Repr

/-- Row of the `dim_time` table. -/
structure TimeRow where
  start_time : Datetime
  hour : Nat
  day : Nat
  week : Nat
  month : Nat
  year : Nat
  weekday : Nat
deriving DecidableEq, Repr

/-- Row of the `fact_songplays` table. `song_id`/`artist_id` are `none`
when the left join found no matching song record. -/
structure SongplayRow where
  songplay_id : Nat
  start_time : Datetime
  user_id : String
  level : String
  song_id : Option String
  artist_id : Option String
  session_id : Nat
  location : String
  user_agent : String
  year : Nat
  month : Nat
deriving DecidableEq, Repr

/-! ## Calendar arithmetic (`from_unixtime` and the column functions) -/

/-- Gregorian leap-year test. -/
def isLeap (y : Nat) : Bool :=
  (y % 4 == 0 && y % 100 != 0) || y % 400 == 0

/-- Civil date (year, month, day) from a count of days since 1970-01-01,
by the standard Gregorian era decomposition. -/
def civilFromDays (z0 : Nat) : Nat × Nat × Nat :=
  let z := z0 + 719468
  let era := z / 146097
  let doe := z % 146097
  let yoe := (doe - doe / 1460 + doe / 36524 - doe / 146096) / 365
  let y := yoe + era * 400
  let doy := doe - (365 * yoe + yoe / 4 - yoe / 100)
  let mp := (5 * doy + 2) / 153
  let d := doy - (153 * mp + 2) / 5 + 1
  let m := if mp < 10 then mp + 3 else mp - 9
  (if m ≤ 2 then y + 1 else y, m, d)

/-- Epoch seconds to a whole-second calendar timestamp, modelling Spark's
`from_unixtime` (UTC). -/
def from_unixtime (s : Nat) : Datetime :=
  let days := s / 86400
  let rem := s % 86400
  let ymd := civilFromDays days
  ⟨ymd.1, ymd.2.1, ymd.2.2, rem / 3600, rem % 3600 / 60, rem % 60⟩

/-- Cumulative day counts of a non-leap year before each month. -/
def daysBeforeMonth (y m : Nat) : Nat :=
  (([31, 28, 31, 30, 31, 30, 31, 31, 30, 31, 30, 31].take (m - 1)).foldl (· + ·) 0)
    + (if 2 < m && isLeap y then 1 else 0)

/-- Ordinal day of the year of a civil date. -/
def dayOfYear (y m d : Nat) : Nat :=
  daysBeforeMonth y m + d

/-- Number of ISO weeks of a year (52 or 53). -/
def weeksInYear (y : Nat) : Nat :=
  let p := fun (n : Nat) => (n + n / 4 - n / 100 + n / 400) % 7
  if p y == 4 || p (y - 1) == 3 then 53 else 52

/-- ISO day of week of an epoch-second instant, Monday = 1. -/
def isoDayOfWeek (s : Nat) : Nat :=
  (s / 86400 + 3) % 7 + 1

/-- ISO week of year of an epoch-second instant, modelling Spark's
`weekofyear`. -/
def weekofyear (s : Nat) : Nat :=
  let ymd := civilFromDays (s / 86400)
  let doy := dayOfYear ymd.1 ymd.2.1 ymd.2.2
  let w := (doy + 10 - isoDayOfWeek s) / 7
  if w < 1 then weeksInYear (ymd.1 - 1)
  else if weeksInYear ymd.1 < w then 1
  else w

/-- Day of week of an epoch-second instant, modelling Spark's `dayofweek`:
Sunday = 1 through Saturday = 7 (1970-01-01 was a Thursday, giving 5). -/
def dayofweek (s : Nat) : Nat :=
  (s / 86400 + 4) % 7 + 1

/-! ## Song dimension builder (`process_song_data`) -/

/-- Projection of a song record onto the `dim_songs` columns. -/
def projSong (r : SongRecord) : SongDimRow :=
  ⟨r.song_id, r.title, r.artist_id, r.year, r.duration⟩

/-- Projection of a song record onto the `dim_artists` columns (the
`withColumnRenamed` chain only relabels the five selected columns). -/
def projArtist (r : SongRecord) : ArtistDimRow :=
  ⟨r.artist_id, r.artist_name, r.artist_location, r.artist_latitude, r.artist_longitude⟩

/-- The `songs_table` dataframe:
`df.select('song_id', 'title', 'artist_id', 'year', 'duration').dropDuplicates()`. -/
def songs_table (df : List SongRecord) : List SongDimRow :=
  (df.map projSong).dedup

/-- The `artists_table` dataframe: select the five `artist_*` columns,
`dropDuplicates()`, rename to canonical names. -/
def artists_table (df : List SongRecord) : List ArtistDimRow :=
  (df.map projArtist).dedup

/-! ## Log processing (`process_log_data`) -/

/-- The page filter `df.filter(df.page == 'NextSong')`. -/
def filterNextSong (logs : List LogEvent) : List LogEvent :=
  logs.filter (fun e => e.page == "NextSong")

/-- Distinct `userId` values of a (filtered) log dataframe: the grouping
keys of `df.groupBy('userId')`. -/
def userIds (df : List LogEvent) : List String :=
  (df.map (·.userId)).dedup

/-- Maximum `ts` among a user's events: the `max('ts')` aggregate of that
user's group. -/
def maxTs (df : List LogEvent) (u : String) : Nat :=
  ((df.filter (fun e => e.userId == u)).map (·.ts)).foldl Nat.max 0

/-- The `max_ts_user_df` dataframe: one `(user_id, max_ts)` pair per
distinct `userId` of the filtered events. -/
def max_ts_user (df : List LogEvent) : List (String × Nat) :=
  (userIds df).map (fun u => (u, maxTs df u))

/-- Projection of a log event onto the `dim_users` columns (with the
renames applied). -/
def projUser (e : LogEvent) : UserRow :=
  ⟨e.userId, e.firstName, e.lastName, e.gender, e.level⟩

/-- The `users_table` dataframe: inner join of the filtered events with
`max_ts_user_df` under the mask
`(df.userId == user_id) & (df.ts == max_ts)`, then the five-column
projection. -/
def users_of (df : List LogEvent) : List UserRow :=
  df.flatMap (fun e =>
    (max_ts_user df).filterMap (fun p =>
      if e.userId = p.1 ∧ e.ts = p.2 then some (projUser e) else none))

/-- `dim_users` as a function of the raw log dataset (filter, then the
max-then-rejoin idiom). -/
def users_table (logs : List LogEvent) : List UserRow :=
  users_of (filterNextSong logs)

/-- The udf of line 100: `lambda x: str(int(x/1000))` — decimal string of
the truncated quotient. -/
def get_timestamp (x : Nat) : String :=
  toString (x / 1000)

/-- The numeric content of `get_timestamp`: milliseconds to seconds by
truncating division. -/
def tsToSeconds (x : Nat) : Nat :=
  x / 1000

/-- One `dim_time` row derived from a log event: `from_unixtime(ts_ms)`
renamed to `start_time`, plus the six calendar columns. -/
def timeRowOf (e : LogEvent) : TimeRow :=
  let s := tsToSeconds e.ts
  let dt := from_unixtime s
  ⟨dt, dt.hour, dt.day, weekofyear s, dt.month, dt.year, dayofweek s⟩

/-- The `time_table` dataframe: one row per filtered event (no
deduplication). -/
def time_table (logs : List LogEvent) : List TimeRow :=
  (filterNextSong logs).map timeRowOf

/-- Whether a song record matches a log event under the join condition
`(df.song == song_df.title) & (df.artist == song_df.artist_name)` —
exact, case-sensitive string equality. -/
def matchesSong (e : LogEvent) (s : SongRecord) : Bool :=
  e.song == s.title && e.artist == s.artist_name

/-- Left--outer-join contribution of one log event: every matching song
record, or a single `none` when no record matches. -/
def joinMatches (e : LogEvent) (songs : List SongRecord) : List (Option SongRecord) :=
  if (songs.filter (matchesSong e)).isEmpty then [none]
  else (songs.filter (matchesSong e)).map some

/-- The joined rows of `df.join(song_df, ..., how='left')`, one element
per output row of the join. -/
def songplays_pairs (df : List LogEvent) (songs : List SongRecord) :
    List (LogEvent × Option SongRecord) :=
  df.flatMap (fun e => (joinMatches e songs).map (fun os => (e, os)))

/-- Sequential id assignment, modelling `monotonically_increasing_id()`:
every row receives a distinct id. -/
def withIds {α : Type} : Nat → List α → List (Nat × α)
  | _, [] => []
  | n, x :: xs => (n, x) :: withIds (n + 1) xs

/-- Assemble one `fact_songplays` row from an id and a joined pair:
project the fact columns, rename, and derive `year`/`month` from
`start_time`. -/
def mkSongplay (i : Nat) (p : LogEvent × Option SongRecord) : SongplayRow :=
  let e := p.1
  let dt := from_unixtime (tsToSeconds e.ts)
  ⟨i, dt, e.userId, e.level, p.2.map (·.song_id), p.2.map (·.artist_id),
    e.sessionId, e.location, e.userAgent, dt.year, dt.month⟩

/-- The `songplays_table` dataframe as a function of the raw log and song
datasets. -/
def songplays_table (logs : List LogEvent) (songs : List SongRecord) :
    List SongplayRow :=
  (withIds 0 (songplays_pairs (filterNextSong logs) songs)).map
    (fun q => mkSongplay q.1 q.2)

/-! ## Write calls -/

/-- A persistence call: destination dataset, save mode, and the columns of
`partitionBy` (empty when the write is unpartitioned). -/
structure WriteSpec where
  dataset : String
  mode : String
  partitionBy : List String
deriving DecidableEq, Repr

/-- Line 45--47: `songs_table.write.partitionBy('year', 'artist_id').parquet(output_data + 'dim_songs/', 'overwrite')`. -/
def songsWrite : WriteSpec :=
  ⟨"dim_songs", "overwrite", ["year", "artist_id"]⟩

/-- Line 58: `artists_table.write.parquet(output_data + 'dim_artists/', 'overwrite')`. -/
def artistsWrite : WriteSpec :=
  ⟨"dim_artists", "overwrite", []⟩

/-- Line 97: `users_table.write.parquet(output_data + 'dim_users/', 'overwrite')`. -/
def usersWrite : WriteSpec :=
  ⟨"dim_users", "overwrite", []⟩

/-- Line 115: `time_table.write.parquet(output_data + 'dim_time/', 'overwrite')` — no `partitionBy` call occurs. -/
def timeWrite : WriteSpec :=
  ⟨"dim_time", "overwrite", []⟩

/-- Line 135: `songplays_table.write.partitionBy('year', 'month').parquet(output_data + 'fact_songplays/', 'overwrite')`. -/
def songplaysWrite : WriteSpec :=
  ⟨"fact_songplays", "overwrite", ["year", "month"]⟩

/-! ## Demonstration inputs used by the witness theorems -/

/-- Demo input for the claim C1 witness: user `u1` with a `free` event at
`ts = 100` and a `paid` event at `ts = 200`, both on page `NextSong`. -/
def c1logs : List LogEvent :=
  [⟨"u1", "Ann", "Lee", "F", "free", 100, "NextSong", "s", "a", 1, "home", "ua"⟩,
   ⟨"u1", "Ann", "Lee", "F", "paid", 200, "NextSong", "s", "a", 2, "home", "ua"⟩]

/-- Filtered events of user `u` whose `ts` attains the user's maximum. -/
def eventsAtMax (df : List LogEvent) (u : String) : List LogEvent :=
  df.filter (fun e => e.userId == u && e.ts == maxTs df u)

/-- Demo input for the claim C4 witness: one user `u2` with a unique
maximal event. -/
def c4logs : List LogEvent :=
  [⟨"u2", "Bo", "Kim", "M", "free", 50, "NextSong", "s", "a", 3, "home", "ua"⟩,
   ⟨"u2", "Bo", "Kim", "M", "paid", 70, "NextSong", "s", "a", 4, "home", "ua"⟩]

/-- Counterexample input for claim C4: user `u1` has two filtered events
that tie at the maximal timestamp `ts = 100`. -/
def c4tieLogs : List LogEvent :=
  [⟨"u1", "Ann", "Lee", "F", "free", 100, "NextSong", "s", "a", 1, "home", "ua"⟩,
   ⟨"u1", "Ann", "Lee", "F", "free", 100, "NextSong", "s", "a", 2, "home", "ua"⟩]

/-- Demo non-play event for the claim C3 witness (page `Login`). -/
def c3login : LogEvent :=
  ⟨"u3", "Cy", "Doe", "M", "free", 10, "Login", "s", "a", 9, "home", "ua"⟩

/-- Demo play events for the claim C3 witness. -/
def c3logs : List LogEvent :=
  [⟨"u3", "Cy", "Doe", "M", "free", 20, "NextSong", "s", "a", 9, "home", "ua"⟩,
   ⟨"u3", "Cy", "Doe", "M", "free", 30, "NextSong", "s", "a", 9, "home", "ua"⟩]

/-- Demo song records for the claim C3 witness. -/
def c3songs : List SongRecord :=
  [⟨"sid1", "s", "aid1", "a", "x", 0, 0, 2000, 0⟩]

/-- Demo input for the claim C2 witness: two play events, one matching the
single song record and one matching nothing. -/
def c2logs : List LogEvent :=
  [⟨"u5", "Ed", "Gee", "M", "paid", 100, "NextSong", "S", "A", 1, "home", "ua"⟩,
   ⟨"u5", "Ed", "Gee", "M", "paid", 200, "NextSong", "T", "B", 1, "home", "ua"⟩]

/-- Demo song records for the claim C2 witness. -/
def c2songs : List SongRecord :=
  [⟨"s1", "S", "a1", "A", "x", 0, 0, 2000, 0⟩]

/-- Counterexample input for claim C2: a single play event whose
`(song, artist)` pair matches two distinct song records. -/
def c2fanLogs : List LogEvent :=
  [⟨"u5", "Ed", "Gee", "M", "paid", 100, "NextSong", "S", "A", 1, "home", "ua"⟩]

/-- Two distinct song records with the same `(title, artist_name)`. -/
def c2fanSongs : List SongRecord :=
  [⟨"s1", "S", "a1", "A", "x", 0, 0, 2000, 0⟩,
   ⟨"s2", "S", "a2", "A", "x", 0, 0, 2001, 0⟩]

/-- Demo event for the claim C8 witness: its `(song, artist)` matches no
record of `c8songs` (case differs). -/
def c8event : LogEvent :=
  ⟨"u4", "Di", "Fox", "F", "paid", 5000, "NextSong", "some song", "Some Artist", 12, "home", "ua"⟩

/-- Demo log input for the claim C8 witness. -/
def c8logs : List LogEvent :=
  [c8event]

/-- Demo song records for the claim C8 witness: titles and artist names
equal only up to case, so the exact-string join misses. -/
def c8songs : List SongRecord :=
  [⟨"sid9", "Some Song", "aid9", "Some Artist", "x", 0, 0, 1999, 0⟩]

/-- Demo event at `ts = 1000` ms for the claim C10 witness. -/
def c10e1 : LogEvent :=
  ⟨"u6", "Fi", "Ha", "F", "free", 1000, "NextSong", "s", "a", 7, "home", "ua"⟩

/-- Demo event at `ts = 1999` ms (same truncated second as `c10e1`) for
the claim C10 witness. -/
def c10e2 : LogEvent :=
  ⟨"u6", "Fi", "Ha", "F", "free", 1999, "NextSong", "s", "a", 7, "home", "ua"⟩

/-! ## Helper lemmas -/

theorem filterNextSong_cons_of_ne (e : LogEvent) (logs : List LogEvent)
    (h : e.page ≠ "NextSong") : filterNextSong (e :: logs) = filterNextSong logs := by
  simp [filterNextSong, List.filter_cons, h]

theorem le_foldl_max (l : List Nat) (a : Nat) : a ≤ l.foldl Nat.max a := by
  induction l generalizing a with
  | nil => exact Nat.le_refl a
  | cons x xs ih => exact Nat.le_trans (Nat.le_max_left a x) (ih (Nat.max a x))

theorem mem_le_foldl_max (l : List Nat) (a x : Nat) (hx : x ∈ l) :
    x ≤ l.foldl Nat.max a := by
  induction l generalizing a with
  | nil => cases hx
  | cons y ys ih =>
    rcases List.mem_cons.mp hx with rfl | hmem
    · exact Nat.le_trans (Nat.le_max_right a x) (le_foldl_max ys (Nat.max a x))
    · exact ih (Nat.max a y) hmem

theorem foldl_max_attained (l : List Nat) : ∀ (a : Nat),
    l.foldl Nat.max a = a ∨ l.foldl Nat.max a ∈ l := by
  induction l with
  | nil => exact fun a => Or.inl rfl
  | cons x xs ih =>
    intro a
    have hfold : (x :: xs).foldl Nat.max a = xs.foldl Nat.max (Nat.max a x) := rfl
    rcases ih (Nat.max a x) with h | h
    · rcases Nat.le_total x a with hle | hle
      · exact Or.inl (by rw [hfold, h]; exact Nat.max_eq_left hle)
      · refine Or.inr (List.mem_cons.mpr (Or.inl ?_))
        rw [hfold, h]; exact Nat.max_eq_right hle
    · exact Or.inr (List.mem_cons_of_mem x (hfold ▸ h))

theorem ts_le_maxTs (df : List LogEvent) (e : LogEvent) (he : e ∈ df) :
    e.ts ≤ maxTs df e.userId := by
  have hef : e ∈ df.filter (fun x => x.userId == e.userId) :=
    List.mem_filter.mpr ⟨he, beq_self_eq_true e.userId⟩
  exact mem_le_foldl_max _ 0 e.ts (List.mem_map_of_mem (·.ts) hef)

theorem maxTs_attained (df : List LogEvent) (u : String) (e : LogEvent)
    (he : e ∈ df) (hu : e.userId = u) :
    ∃ x ∈ df, x.userId = u ∧ x.ts = maxTs df u := by
  have hef : e ∈ df.filter (fun x => x.userId == u) :=
    List.mem_filter.mpr ⟨he, by simp [hu]⟩
  rcases foldl_max_attained ((df.filter (fun x => x.userId == u)).map (·.ts)) 0 with h0 | hm
  · refine ⟨e, he, hu, ?_⟩
    have hle : e.ts ≤ maxTs df u :=
      mem_le_foldl_max _ 0 e.ts (List.mem_map_of_mem (·.ts) hef)
    have hz : maxTs df u = 0 := h0
    omega
  · rcases List.mem_map.mp hm with ⟨x, hxf, hxt⟩
    rcases List.mem_filter.mp hxf with ⟨hxd, hxu⟩
    exact ⟨x, hxd, by simpa using hxu, hxt⟩

theorem filterMap_single {β : Type} (a : String) (g : String → Option β) :
    ∀ (l : List String), l.Nodup → a ∈ l → (∀ u ∈ l, u ≠ a → g u = none) →
    l.filterMap g = (g a).toList := by
  intro l
  induction l with
  | nil => intro _ ha _; cases ha
  | cons u t ih =>
    intro hnd ha hg
    rcases List.mem_cons.mp ha with rfl | hat
    · have ht : t.filterMap g = [] := by
        rw [List.filterMap_eq_nil_iff]
        intro v hv
        exact hg v (List.mem_cons_of_mem a hv)
          (fun hva => absurd (hva ▸ hv) (List.nodup_cons.mp hnd).1)
      rw [List.filterMap_cons, ht]
      cases hgu : g a <;> simp [hgu]
    · have hu : g u = none :=
        hg u (List.mem_cons_self u t)
          (fun hua => absurd hat (hua ▸ (List.nodup_cons.mp hnd).1))
      rw [List.filterMap_cons, hu]
      exact ih (List.nodup_cons.mp hnd).2 hat
        (fun v hv => hg v (List.mem_cons_of_mem u hv))

theorem users_inner_eq (df : List LogEvent) (e : LogEvent) (he : e ∈ df) :
    (max_ts_user df).filterMap (fun p =>
        if e.userId = p.1 ∧ e.ts = p.2 then some (projUser e) else none)
      = if e.ts = maxTs df e.userId then [projUser e] else [] := by
  rw [max_ts_user, List.filterMap_map]
  have hnd : (userIds df).Nodup := List.nodup_dedup _
  have ha : e.userId ∈ userIds df :=
    List.mem_dedup.mpr (List.mem_map_of_mem (·.userId) he)
  have hsingle := filterMap_single e.userId
    (fun u => if e.userId = u ∧ e.ts = maxTs df u then some (projUser e) else none)
    (userIds df) hnd ha
    (fun u _ hne => if_neg (fun hc => hne hc.1.symm))
  rw [show ((fun p : String × Nat =>
        if e.userId = p.1 ∧ e.ts = p.2 then some (projUser e) else none) ∘
        (fun u => (u, maxTs df u)))
      = fun u => if e.userId = u ∧ e.ts = maxTs df u then some (projUser e) else none
    from rfl]
  rw [hsingle]
  by_cases hts : e.ts = maxTs df e.userId <;> simp [hts]

theorem flatMap_toList_eq_filterMap {α β : Type} (l : List α) (f : α → List β)
    (g : α → Option β) (h : ∀ x ∈ l, f x = (g x).toList) :
    l.flatMap f = l.filterMap g := by
  induction l with
  | nil => rfl
  | cons x xs ih =>
    rw [List.flatMap_cons, List.filterMap_cons,
      h x (List.mem_cons_self x xs), ih (fun y hy => h y (List.mem_cons_of_mem x hy))]
    cases g x <;> rfl

theorem users_of_eq (df : List LogEvent) :
    users_of df = df.filterMap (fun e =>
      if e.ts = maxTs df e.userId then some (projUser e) else none) := by
  rw [users_of]
  apply flatMap_toList_eq_filterMap
  intro e he
  rw [users_inner_eq df e he]
  by_cases hts : e.ts = maxTs df e.userId <;> simp [hts]

/-! ## Claim C1: latest-state correctness of `dim_users` -/

/-- Claim C1: every row of `dim_users` is the projection of a filtered
(`page == "NextSong"`) event of its user whose `ts` is maximal among that
user's filtered events, and every user with a filtered event appears; in
particular a user with a `free` event at `ts = 100` and a `paid` event at
`ts = 200` appears with `level = paid` and never with `level = free`. -/
theorem users_table_latest_state (logs : List LogEvent) :
    (∀ r ∈ users_table logs, ∃ e ∈ filterNextSong logs,
        r = projUser e ∧ ∀ e2 ∈ filterNextSong logs, e2.userId = e.userId → e2.ts ≤ e.ts)
    ∧ (∀ e ∈ filterNextSong logs, ∃ r ∈ users_table logs, r.user_id = e.userId) := by
  constructor
  · intro r hr
    rw [users_table, users_of_eq] at hr
    rcases List.mem_filterMap.mp hr with ⟨e, he, hsome⟩
    by_cases hts : e.ts = maxTs (filterNextSong logs) e.userId
    · rw [if_pos hts] at hsome
      refine ⟨e, he, (Option.some.inj hsome).symm, ?_⟩
      intro e2 he2 huid
      have hle := ts_le_maxTs (filterNextSong logs) e2 he2
      rw [huid] at hle
      rw [hts]
      exact hle
    · rw [if_neg hts] at hsome; cases hsome
  · intro e he
    rcases maxTs_attained (filterNextSong logs) e.userId e he rfl with ⟨x, hx, hxu, hxt⟩
    refine ⟨projUser x, ?_, hxu⟩
    rw [users_table, users_of_eq]
    apply List.mem_filterMap.mpr
    refine ⟨x, hx, ?_⟩
    rw [if_pos]
    rw [hxu]
    exact hxt

/-- Witness for claim C1: on `c1logs` the paid row of `dim_users` comes
from a maximal-`ts` event of `u1`. -/
theorem users_table_latest_state_witness :
    ∃ e ∈ filterNextSong c1logs,
      (⟨"u1", "Ann", "Lee", "F", "paid"⟩ : UserRow) = projUser e
        ∧ ∀ e2 ∈ filterNextSong c1logs, e2.userId = e.userId → e2.ts ≤ e.ts :=
  (users_table_latest_state c1logs).1 ⟨"u1", "Ann", "Lee", "F", "paid"⟩ (by decide)

/-! ## Claim C4: row multiplicity of `dim_users` per user -/

theorem filterMap_if_count (u : String) (M : String → Nat) (l : List LogEvent) :
    ((l.filterMap (fun e =>
          if e.ts = M e.userId then some (projUser e) else none)).filter
        (fun r => r.user_id == u)).length
      = (l.filter (fun e => e.userId == u && e.ts == M e.userId)).length := by
  induction l with
  | nil => rfl
  | cons e t ih =>
    have hpe : ((projUser e).user_id == u) = (e.userId == u) := rfl
    rw [List.filterMap_cons]
    by_cases hts : e.ts = M e.userId
    · rw [if_pos hts, List.filter_cons, List.filter_cons, hpe]
      by_cases huid : e.userId = u
      · rw [if_pos (by simp [huid]), if_pos (by simp [huid, hts])]
        rw [List.length_cons, List.length_cons, ih]
      · rw [if_neg (by simp [huid]), if_neg (by simp [huid])]
        exact ih
    · rw [if_neg hts, List.filter_cons]
      by_cases huid : e.userId = u
      · rw [if_neg (by simp [hts])]
        exact ih
      · rw [if_neg (by simp [huid])]
        exact ih

/-- Claim C4 (amended): `dim_users` has at least one row for every
distinct `user_id` of the filtered events, and the number of rows of user
`u` equals the number of `u`'s filtered events whose `ts` attains `u`'s
maximum — exactly one precisely when the maximum is uniquely attained. -/
theorem users_table_rows_per_user (logs : List LogEvent) (u : String)
    (hu : u ∈ userIds (filterNextSong logs)) :
    ((users_table logs).filter (fun r => r.user_id == u)).length
        = (eventsAtMax (filterNextSong logs) u).length
    ∧ 1 ≤ (eventsAtMax (filterNextSong logs) u).length := by
  constructor
  · rw [users_table, users_of_eq, filterMap_if_count u (maxTs (filterNextSong logs)),
      eventsAtMax]
    apply congrArg List.length
    apply List.filter_congr
    intro e _
    by_cases h : e.userId = u
    · rw [h]
    · have hb : (e.userId == u) = false := by simp [h]
      rw [hb, Bool.false_and, Bool.false_and]
  · rcases List.mem_map.mp (List.mem_dedup.mp hu) with ⟨e, he, heu⟩
    rcases maxTs_attained (filterNextSong logs) u e he heu with ⟨x, hx, hxu, hxt⟩
    have hmem : x ∈ eventsAtMax (filterNextSong logs) u :=
      List.mem_filter.mpr ⟨hx, by simp [hxu, hxt]⟩
    have hpos := List.length_pos.mpr (List.ne_nil_of_mem hmem)
    omega

/-- Witness for claim C4 (amended) at `c4logs` and user `u2`. -/
theorem users_table_rows_per_user_witness :
    ((users_table c4logs).filter (fun r => r.user_id == "u2")).length
        = (eventsAtMax (filterNextSong c4logs) "u2").length
    ∧ 1 ≤ (eventsAtMax (filterNextSong c4logs) "u2").length :=
  users_table_rows_per_user c4logs "u2" (by decide)

/-- Counterexample for claim C4 as stated: on `c4tieLogs` the user `u1`
appears in two rows of `dim_users`, so a `user_id` can appear in more than
one row. -/
theorem users_table_tie_fanout :
    ((users_table c4tieLogs).filter (fun r => r.user_id == "u1")).length = 2 := by
  decide

/-! ## Claim C3: the `NextSong` filter guards all three derivations -/

/-- Claim C3: an event whose page is not exactly `"NextSong"` contributes
nothing to `dim_users`, `dim_time` or `fact_songplays`: dropping it from
the input leaves all three outputs unchanged. -/
theorem nextsong_filter_excludes (e : LogEvent) (logs : List LogEvent)
    (songs : List SongRecord) (h : e.page ≠ "NextSong") :
    users_table (e :: logs) = users_table logs
    ∧ time_table (e :: logs) = time_table logs
    ∧ songplays_table (e :: logs) songs = songplays_table logs songs := by
  have hf := filterNextSong_cons_of_ne e logs h
  refine ⟨?_, ?_, ?_⟩ <;> simp [users_table, time_table, songplays_table, hf]

/-- Witness for claim C3: a `Login` event contributes to none of the three
outputs. -/
theorem nextsong_filter_excludes_witness :
    users_table (c3login :: c3logs) = users_table c3logs
    ∧ time_table (c3login :: c3logs) = time_table c3logs
    ∧ songplays_table (c3login :: c3logs) c3songs = songplays_table c3logs c3songs :=
  nextsong_filter_excludes c3login c3logs c3songs (by decide)

/-! ## Claim C5: dedup of the song and artist dimensions -/

theorem list_union_of_subset {α : Type} [DecidableEq α] :
    ∀ (l₁ l₂ : List α), (∀ a ∈ l₁, a ∈ l₂) → l₁ ∪ l₂ = l₂ := by
  intro l₁
  induction l₁ with
  | nil => intro l₂ _; rfl
  | cons a t ih =>
    intro l₂ h
    rw [List.cons_union, ih l₂ (fun x hx => h x (List.mem_cons_of_mem a hx)),
      List.insert_of_mem (h a (List.mem_cons_self a t))]

/-- Claim C5: `dim_songs` and `dim_artists` carry no two identical rows, a
row appears exactly when some input record projects to it (duplicate input
rows collapse to one), and rebuilding from a duplicated input changes
nothing — the builder is idempotent in its input. -/
theorem song_dimension_dedup (recs : List SongRecord) :
    (songs_table recs).Nodup ∧ (artists_table recs).Nodup
    ∧ (∀ r, r ∈ songs_table recs ↔ ∃ x ∈ recs, projSong x = r)
    ∧ (∀ a, a ∈ artists_table recs ↔ ∃ x ∈ recs, projArtist x = a)
    ∧ songs_table (recs ++ recs) = songs_table recs
    ∧ artists_table (recs ++ recs) = artists_table recs := by
  refine ⟨List.nodup_dedup _, List.nodup_dedup _, ?_, ?_, ?_, ?_⟩
  · intro r
    rw [songs_table, List.mem_dedup, List.mem_map]
  · intro a
    rw [artists_table, List.mem_dedup, List.mem_map]
  · rw [songs_table, songs_table, List.map_append, List.dedup_append]
    exact list_union_of_subset _ _ (fun a ha => List.mem_dedup.mpr ha)
  · rw [artists_table, artists_table, List.map_append, List.dedup_append]
    exact list_union_of_subset _ _ (fun a ha => List.mem_dedup.mpr ha)

/-! ## Claim C6: partitioning of the `dim_time` write -/

/-- Claim C6 evaluation: the `dim_time` write at line 115 carries no
partition columns, while the `fact_songplays` write at line 135 is
partitioned by `(year, month)`; both are overwrite writes. The code
disagrees with its own comment at line 114 ("partitioned by year and
month"). -/
theorem time_write_unpartitioned :
    timeWrite.partitionBy = [] ∧ timeWrite.mode = "overwrite"
    ∧ songplaysWrite.partitionBy = ["year", "month"] :=
  ⟨rfl, rfl, rfl⟩

/-! ## Claim C9: the millisecond-to-second conversion -/

/-- Claim C9: `get_timestamp` is the pure conversion of epoch milliseconds
to the decimal representation of epoch seconds, computed by integer
truncation of division by 1000 — the quotient `q` satisfies
`1000*q ≤ x < 1000*q + 1000`, which rules out round-to-nearest. -/
theorem get_timestamp_truncates (x : Nat) :
    get_timestamp x = toString (x / 1000)
    ∧ 1000 * (x / 1000) ≤ x ∧ x < 1000 * (x / 1000) + 1000 :=
  ⟨rfl, by omega, by omega⟩

/-! ## Claim C7: surrogate key uniqueness -/

theorem withIds_map_fst {α : Type} (l : List α) : ∀ (n : Nat),
    (withIds n l).map Prod.fst = List.range' n l.length := by
  induction l with
  | nil => intro n; rfl
  | cons x xs ih =>
    intro n
    show ((n, x) :: withIds (n + 1) xs).map Prod.fst = List.range' n (xs.length + 1)
    rw [List.map_cons, ih (n + 1), List.range'_succ]

/-- Claim C7: within one run, all `songplay_id` values of
`fact_songplays` are pairwise distinct. -/
theorem songplay_ids_distinct (logs : List LogEvent) (songs : List SongRecord) :
    ((songplays_table logs songs).map (fun r => r.songplay_id)).Nodup := by
  rw [songplays_table, List.map_map]
  have hcomp : ((fun r : SongplayRow => r.songplay_id) ∘
      (fun q : Nat × (LogEvent × Option SongRecord) => mkSongplay q.1 q.2))
      = Prod.fst := rfl
  rw [hcomp, withIds_map_fst]
  exact List.nodup_range' _ _

/-! ## Claim C2: fact row count versus filtered event count -/

theorem withIds_length {α : Type} (l : List α) : ∀ (n : Nat),
    (withIds n l).length = l.length := by
  induction l with
  | nil => intro n; rfl
  | cons x xs ih =>
    intro n
    show ((n, x) :: withIds (n + 1) xs).length = xs.length + 1
    rw [List.length_cons, ih (n + 1)]

theorem map_sum_ones {α : Type} : ∀ (l : List α) (g : α → Nat),
    (∀ x ∈ l, g x = 1) → (l.map g).sum = l.length := by
  intro l
  induction l with
  | nil => intro g _; rfl
  | cons x xs ih =>
    intro g h
    rw [List.map_cons, List.sum_cons, h x (List.mem_cons_self x xs),
      ih g (fun y hy => h y (List.mem_cons_of_mem x hy)), List.length_cons]
    omega

theorem joinMatches_length_one (e : LogEvent) (songs : List SongRecord)
    (h : (songs.filter (matchesSong e)).length ≤ 1) :
    (joinMatches e songs).length = 1 := by
  rw [joinMatches]
  cases hms : songs.filter (matchesSong e) with
  | nil => rfl
  | cons s rest =>
    rw [hms] at h
    rw [if_neg (by simp), List.length_map]
    simp only [List.length_cons] at h ⊢
    omega

/-- Claim C2 (amended): the row count of `fact_songplays` equals the
count of filtered (`page == "NextSong"`) events whenever every filtered
event matches at most one song record — so for zero-or-one matches the
count is preserved; with several matching song records the left join fans
out instead. -/
theorem songplays_count (logs : List LogEvent) (songs : List SongRecord)
    (h : ∀ e ∈ filterNextSong logs, (songs.filter (matchesSong e)).length ≤ 1) :
    (songplays_table logs songs).length = (filterNextSong logs).length := by
  rw [songplays_table, List.length_map, withIds_length, songplays_pairs,
    List.length_flatMap]
  apply map_sum_ones
  intro e he
  show ((joinMatches e songs).map _).length = 1
  rw [List.length_map]
  exact joinMatches_length_one e songs (h e he)

/-- Witness for claim C2 (amended): with at most one match per event the
fact table has exactly one row per filtered event. -/
theorem songplays_count_witness :
    (songplays_table c2logs c2songs).length = (filterNextSong c2logs).length :=
  songplays_count c2logs c2songs (by decide)

/-- Counterexample for claim C2 as stated: one filtered event yields two
fact rows when two song records match, so the fact row count can exceed
the filtered event count. -/
theorem songplays_count_fanout :
    (songplays_table c2fanLogs c2fanSongs).length = 2
    ∧ (filterNextSong c2fanLogs).length = 1 := by
  decide

/-! ## Claim C8: unmatched events are kept with null keys -/

theorem mem_withIds_of_mem {α : Type} (x : α) :
    ∀ (l : List α), x ∈ l → ∀ (n : Nat), ∃ i, (i, x) ∈ withIds n l := by
  intro l
  induction l with
  | nil => intro hx; cases hx
  | cons y ys ih =>
    intro hx n
    rcases List.mem_cons.mp hx with rfl | hmem
    · exact ⟨n, List.mem_cons_self _ _⟩
    · rcases ih hmem (n + 1) with ⟨i, hi⟩
      exact ⟨i, List.mem_cons_of_mem _ hi⟩

/-- Claim C8: a filtered event matching no song record (exact,
case-sensitive equality on `(song, artist)` vs `(title, artist_name)`) is
not an error: a fact row for it is still emitted, with `song_id` and
`artist_id` null and every other column derived from the event exactly as
for matched rows. -/
theorem unmatched_event_fact_row (logs : List LogEvent) (songs : List SongRecord)
    (e : LogEvent) (he : e ∈ filterNextSong logs)
    (hnm : songs.filter (matchesSong e) = []) :
    ∃ r ∈ songplays_table logs songs,
      r.song_id = none ∧ r.artist_id = none ∧ r.user_id = e.userId
      ∧ r.level = e.level ∧ r.session_id = e.sessionId ∧ r.location = e.location
      ∧ r.user_agent = e.userAgent ∧ r.start_time = from_unixtime (tsToSeconds e.ts)
      ∧ r.year = (from_unixtime (tsToSeconds e.ts)).year
      ∧ r.month = (from_unixtime (tsToSeconds e.ts)).month := by
  have hjm : joinMatches e songs = [none] := by
    rw [joinMatches, hnm]; rfl
  have hpair : (e, (none : Option SongRecord))
      ∈ songplays_pairs (filterNextSong logs) songs :=
    List.mem_flatMap.mpr ⟨e, he, by rw [hjm]; exact List.mem_cons_self _ _⟩
  rcases mem_withIds_of_mem _ _ hpair 0 with ⟨i, hi⟩
  exact ⟨mkSongplay i (e, none),
    List.mem_map_of_mem (fun q => mkSongplay q.1 q.2) hi,
    rfl, rfl, rfl, rfl, rfl, rfl, rfl, rfl, rfl, rfl⟩

/-- Witness for claim C8 at the concrete unmatched event `c8event`. -/
theorem unmatched_event_fact_row_witness :
    ∃ r ∈ songplays_table c8logs c8songs,
      r.song_id = none ∧ r.artist_id = none ∧ r.user_id = c8event.userId
      ∧ r.level = c8event.level ∧ r.session_id = c8event.sessionId
      ∧ r.location = c8event.location ∧ r.user_agent = c8event.userAgent
      ∧ r.start_time = from_unixtime (tsToSeconds c8event.ts)
      ∧ r.year = (from_unixtime (tsToSeconds c8event.ts)).year
      ∧ r.month = (from_unixtime (tsToSeconds c8event.ts)).month :=
  unmatched_event_fact_row c8logs c8songs c8event (by decide) (by decide)

/-! ## Claim C10: whole-second granularity of `start_time` -/

/-- Claim C10: two events whose `ts` values agree after truncating
division by 1000 produce identical `dim_time` rows (all calendar fields
included) and identical `start_time`, `year`, `month` in their fact rows:
the sub-second part of `ts` never reaches the outputs. -/
theorem start_time_second_granularity (e1 e2 : LogEvent)
    (h : tsToSeconds e1.ts = tsToSeconds e2.ts) :
    timeRowOf e1 = timeRowOf e2
    ∧ ∀ (i : Nat) (os : Option SongRecord),
        (mkSongplay i (e1, os)).start_time = (mkSongplay i (e2, os)).start_time
        ∧ (mkSongplay i (e1, os)).year = (mkSongplay i (e2, os)).year
        ∧ (mkSongplay i (e1, os)).month = (mkSongplay i (e2, os)).month := by
  constructor
  · rw [timeRowOf, timeRowOf, h]
  · intro i os
    refine ⟨?_, ?_, ?_⟩ <;> simp only [mkSongplay, h]

/-- Witness for claim C10: events at `ts = 1000` and `ts = 1999` ms are
indistinguishable in `dim_time` and in the fact table's time columns. -/
theorem start_time_second_granularity_witness :
    timeRowOf c10e1 = timeRowOf c10e2
    ∧ (mkSongplay 0 (c10e1, none)).start_time = (mkSongplay 0 (c10e2, none)).start_time :=
  ⟨(start_time_second_granularity c10e1 c10e2 (by decide)).1,
   ((start_time_second_granularity c10e1 c10e2 (by decide)).2 0 none).1⟩
